import Mathlib

/-!
# Shallow embedding of the document rendering pipeline

Embedding of `src/server/services/pdf-service.ts` (class `PDFService`):
the two-stage Word→PDF conversion pipeline with a primary Puppeteer-based
renderer, a pdf-lib based fallback renderer, the shared header/footer
template engine, and the coordinating `convertWordToPDF` method.

Modelling conventions:
* JavaScript strings are Lean `String`s; the JS operations used by the code
  (`substring(0, n)`, `toUpperCase()`, `||` with empty-string falsiness,
  regex replacement of non-printable-ASCII characters) are embedded as
  character-list operations below.
* Calendar dates are a `CalDate` record; `toLocaleDateString('en-GB')`
  renders zero-padded `DD/MM/YYYY`, while `toLocaleDateString()` (no locale,
  used only by the fallback's `drawHeader`) renders in the runtime's default
  locale, which is a parameter of the environment (`Env.localeDateFmt`);
  Node's default ICU locale formats as `M/D/YYYY` (`toLocaleDateString_enUS`).
* Effects (file reads, mammoth extraction, Puppeteer launch/setContent/pdf,
  pdf-lib import, file writes) are modelled by an `Env`/`SourceFile` record
  of success flags and extraction results; each fallible step either yields
  its value or throws the corresponding error message.
* pdf-lib draw calls are reified as `DrawOp` values; coordinates are exact
  centi-points (the source's `841.89`, `595.28`, `height - 170`, ... become
  `84189`, `59528`, ...; all comparisons in the source are far enough from
  the float representation error for this integer model to be exact).
-/

/-- JS `s.toUpperCase()` on the character data (ASCII-relevant part). -/
def jsToUpper (s : String) : String :=
  String.mk (s.data.map Char.toUpper)

/-- JS `s.substring(0, n)`. -/
def jsSubstring0 (s : String) (n : Nat) : String :=
  String.mk (s.data.take n)

/-- JS `a || d` for an optional string `a`: `undefined`/`null` and the empty
string are falsy and select the default `d`. -/
def jsOrDefault : Option String → String → String
  | none, d => d
  | some s, d => if s = "" then d else s

/-- JS `a || b || d` chain over two optional strings. -/
def jsOrDefault2 (a b : Option String) (d : String) : String :=
  jsOrDefault a (jsOrDefault b d)

/-- Substring test on character lists (helper for `strContains`). -/
def subChars (needle : List Char) : List Char → Bool
  | [] => needle.isEmpty
  | c :: t => needle.isPrefixOf (c :: t) || subChars needle t

/-- `strContains hay needle = true` iff `needle` occurs in `hay`. -/
def strContains (hay needle : String) : Bool :=
  subChars needle.data hay.data

/-- Zero-pad a numeral to two digits (en-GB day/month rendering). -/
def pad2 (n : Nat) : String :=
  if n < 10 then "0" ++ toString n else toString n

/-- A calendar date, the payload of the JS `Date` values the service formats. -/
structure CalDate where
  year : Nat
  month : Nat
  day : Nat
deriving DecidableEq

/-- JS `d.toLocaleDateString('en-GB')`: zero-padded `DD/MM/YYYY`. -/
def toLocaleDateString_enGB (d : CalDate) : String :=
  pad2 d.day ++ "/" ++ pad2 d.month ++ "/" ++ toString d.year

/-- JS `d.toLocaleDateString()` under Node's default ICU locale (en-US):
`M/D/YYYY`, no zero padding. -/
def toLocaleDateString_enUS (d : CalDate) : String :=
  toString d.month ++ "/" ++ toString d.day ++ "/" ++ toString d.year

/-- `ControlCopyInfo` from pdf-service.ts. -/
structure ControlCopyInfo where
  userId : String
  userFullName : String
  controlCopyNumber : Nat
  date : String
deriving DecidableEq

/-- The `Document` record (from `@shared/schema`, as used by pdf-service.ts
and described by the spec's DocumentMetadata): identifying strings, version
markers, optional dates, workflow status, role names with their `...Data`
fallbacks, department list and optional markup blocks. -/
structure Document where
  docName : String
  docNumber : String
  issueNo : Option String
  revisionNo : Nat
  dateOfIssue : Option CalDate
  reviewDueDate : Option CalDate
  status : String
  preparerName : Option String
  approverName : Option String
  issuerName : Option String
  creatorDataFullName : Option String
  approverDataFullName : Option String
  issuerDataFullName : Option String
  departmentNames : List String
  headerInfo : Option String
  footerInfo : Option String
  content : Option String
  reasonForRevision : Option String
deriving DecidableEq

/-- The environment of one conversion request: the clock (`Date.now()`,
`new Date()`), the runtime's default locale date formatter, and success
flags for each fallible external step. -/
structure Env where
  now : Nat
  today : CalDate
  localeDateFmt : CalDate → String
  puppeteerLaunchOk : Bool
  setContentOk : Bool
  pagePdfOk : Bool
  writeFileOk : Bool
  pdfLibImportOk : Bool
  fallbackWriteOk : Bool

/-- The source Word file: whether `fs.access`/`fs.readFile` succeed, and the
results of mammoth's two extractions (`none` = the extraction throws). -/
structure SourceFile where
  readOk : Bool
  htmlExtraction : Option String
  textExtraction : Option String
deriving DecidableEq

/-- The managed PDFs output directory (`path.join(process.cwd(), "pdfs")`),
modelled relative to the process working directory. -/
def pdfsDir : String := "pdfs"

/-- Error message of a failed mammoth extraction on unreadable/corrupt input
(identical for the HTML and the raw-text extraction). -/
def extractionErrorMsg : String :=
  "Could not find the body element: are you sure this is a docx file"

/-- Error message of a failed `fs.access`/`fs.readFile`. -/
def enoentMsg : String := "ENOENT: no such file or directory"

/-- Error message of a failed `puppeteer.launch`. -/
def launchErrorMsg : String := "Failed to launch the browser process"

/-- Error message of a failed `page.setContent` (bounded by its 30s timeout). -/
def setContentErrorMsg : String := "Navigation timeout of 30000 ms exceeded"

/-- Error message of a failed `page.pdf`. -/
def pagePdfErrorMsg : String := "Page.printToPDF failed"

/-- Error message of a failed `fs.writeFile`. -/
def writeErrorMsg : String := "EACCES: permission denied, write failed"

/-- Error message of a failed dynamic `import('pdf-lib')` / font embedding. -/
def pdfLibErrorMsg : String := "Cannot find module pdf-lib"

/-! ## Header/footer template engine (`getHeaderTemplate` / `getFooterTemplate`) -/

/-- The text content of the primary path's header template
(`getHeaderTemplate`, pdf-service.ts lines 172-211), one field per cell of
the regulated header table. The running page marker is filled live by the
rendering engine (`pageNumber`/`totalPages` spans) and carries no static
text, so it has no field here. -/
structure HeaderTemplate where
  companyName : String
  issueNoText : String
  dateOfIssueText : String
  revNoText : String
  revDateText : String
  dueRevDateText : String
  deptText : String
  titleText : String
  docNoText : String
deriving DecidableEq

/-- `getHeaderTemplate(document)`: the header-table content of the primary
path. Dates use `toLocaleDateString('en-GB')`, defaulting to today's date
(issue/revision dates) or `'N/A'` (due date); `issueNo` defaults to `'01'`,
`revisionNo` to `0`, the department to the first list entry or
`'Management Representative'`. -/
def getHeaderTemplate (env : Env) (doc : Document) : HeaderTemplate :=
  let dateOfIssue := match doc.dateOfIssue with
    | some d => toLocaleDateString_enGB d
    | none => toLocaleDateString_enGB env.today
  let revDate := match doc.dateOfIssue with
    | some d => toLocaleDateString_enGB d
    | none => toLocaleDateString_enGB env.today
  let dueRevDate := match doc.reviewDueDate with
    | some d => toLocaleDateString_enGB d
    | none => "N/A"
  { companyName := "NEELIKON FOOD DYES AND CHEMICALS LIMITED"
    issueNoText := jsOrDefault doc.issueNo "01"
    dateOfIssueText := dateOfIssue
    revNoText := toString doc.revisionNo
    revDateText := revDate
    dueRevDateText := dueRevDate
    deptText := jsOrDefault doc.departmentNames.head? "Management Representative"
    titleText := doc.docName
    docNoText := doc.docNumber }

/-- The text content of the primary path's footer template
(`getFooterTemplate`, pdf-service.ts lines 213-256): the four signature
cells and, when `ControlCopyInfo` is supplied, the controlled-copy banner. -/
structure FooterTemplate where
  preparedBy : String
  approvedBy : String
  issuedBy : String
  statusText : String
  controlCopyBanner : Option String
deriving DecidableEq

/-- `getFooterTemplate(document, controlCopyInfo)`: role names fall back
through the `...Data` records to role placeholders, the status is
upper-cased, and the controlled-copy banner is appended exactly when
`controlCopyInfo` is present. -/
def getFooterTemplate (doc : Document) (controlCopyInfo : Option ControlCopyInfo) :
    FooterTemplate :=
  { preparedBy := jsOrDefault2 doc.preparerName doc.creatorDataFullName "Asst. MR"
    approvedBy := jsOrDefault2 doc.approverName doc.approverDataFullName "HOD"
    issuedBy := jsOrDefault2 doc.issuerName doc.issuerDataFullName
      "Management Representative \x7b MR \x7d"
    statusText := jsToUpper doc.status
    controlCopyBanner := match controlCopyInfo with
      | some cci =>
          some ("CONTROLLED COPY - NOT FOR REPRODUCTION | Printed by: " ++
            cci.userFullName)
      | none => none }

/-- The footer template flattened to its rendered text (labels and values in
document order), for literal-marker containment statements. -/
def footerText (f : FooterTemplate) : String :=
  "Prepared by " ++ f.preparedBy ++ " Approved by " ++ f.approvedBy ++
  " Issued by " ++ f.issuedBy ++ " Status " ++ f.statusText ++
  (match f.controlCopyBanner with
    | some b => " " ++ b
    | none => "")

/-! ## Fallback renderer (`convertWordToPDFAlternative`, lines 258-317) -/

/-- A reified pdf-lib draw call: `drawText` (string, x, y in centi-points,
font size in points, bold flag) or `drawRectangle` (x, y, width, height in
centi-points). -/
inductive DrawOp where
  | text (s : String) (x y : Int) (size : Nat) (bold : Bool)
  | rect (x y w h : Int)
deriving DecidableEq

/-- Page width in centi-points (`595.28`). -/
def pageWidth : Int := 59528

/-- Page height in centi-points (`841.89`). -/
def pageHeight : Int := 84189

/-- Initial baseline of body text on a page (`height - 170`). -/
def yStart : Int := pageHeight - 17000

/-- Pagination threshold (`y < 150` starts a new page). -/
def yThreshold : Int := 15000

/-- Vertical advance per body line (`y -= 15`). -/
def lineStep : Int := 1500

/-- The fallback's per-line cleaning
(`line.substring(0, 95).replace(/[^\x20-\x7E]/g, " ")`): keep the first 95
characters, replacing every character outside printable ASCII by a space. -/
def cleanLine (line : String) : String :=
  String.mk ((line.data.take 95).map fun c =>
    if 32 ≤ c.toNat ∧ c.toNat ≤ 126 then c else Char.ofNat 32)

/-- One body-text draw call of the fallback loop
(`page.drawText(cleanLine, { x: 50, y, size: 10, font })`). -/
def bodyOp (line : String) (y : Int) : DrawOp :=
  DrawOp.text (cleanLine line) 5000 y 10 false

/-- The fallback's `drawHeader` closure (lines 278-293): document
name/number banner at the very top, header box, upper-cased stored company
header, issue/revision numbers, dates (runtime default locale via
`toLocaleDateString()` with no argument), and the constant page marker
`"Page: 1 of 1"`. -/
def drawHeader (env : Env) (doc : Document) : List DrawOp :=
  let companyHeader := jsToUpper (jsOrDefault doc.headerInfo "")
  let dateOfIssue := match doc.dateOfIssue with
    | some d => env.localeDateFmt d
    | none => env.localeDateFmt env.today
  let dueDate := match doc.reviewDueDate with
    | some d => env.localeDateFmt d
    | none => "N/A"
  [ DrawOp.text ("Document Name: " ++ jsSubstring0 doc.docName 60 ++
      " | Document Number: " ++ jsSubstring0 doc.docNumber 30)
      4500 (pageHeight - 3000) 9 true,
    DrawOp.rect 4000 (pageHeight - 13500) (pageWidth - 8000) 9500,
    DrawOp.text (jsSubstring0 companyHeader 70) 5000 (pageHeight - 6000) 11 true,
    DrawOp.text ("Issue No: " ++ jsOrDefault doc.issueNo "01" ++
      " | Revision No: " ++ toString doc.revisionNo)
      4500 (pageHeight - 8500) 9 false,
    DrawOp.text ("Date of Issue: " ++ dateOfIssue ++ " | Due Date: " ++ dueDate)
      4500 (pageHeight - 10000) 9 false,
    DrawOp.text "Page: 1 of 1" 4500 (pageHeight - 11500) 9 false ]

/-- The fallback's body loop (lines 296-307): for each line, if the
remaining vertical space is below the threshold, flush the current page,
start a new page, re-draw the header and reset the baseline; then draw the
cleaned line and advance. `cur` is the page being built, `pages` the pages
already flushed. -/
def renderLines (hdr : List DrawOp) :
    List String → Int → List DrawOp → List (List DrawOp) → List (List DrawOp)
  | [], _, cur, pages => pages ++ [cur]
  | line :: rest, y, cur, pages =>
    if y < yThreshold then
      renderLines hdr rest (yStart - lineStep)
        (hdr ++ [bodyOp line yStart]) (pages ++ [cur])
    else
      renderLines hdr rest (y - lineStep) (cur ++ [bodyOp line y]) pages

/-- JS `content.split('\n')` on the character data: cut at every newline,
keeping empty segments. -/
def splitNl : List Char → List (List Char)
  | [] => [[]]
  | c :: t =>
    match splitNl t with
    | [] => [[c]]
    | h :: rest =>
      if c.toNat = 10 then [] :: h :: rest else (c :: h) :: rest

/-- `content.split('\n').filter(l => l.trim().length > 0)`: the non-blank
lines of the extracted text (a line survives iff it has a non-whitespace
character). -/
def contentLines (content : String) : List String :=
  ((splitNl content.data).map String.mk).filter fun l =>
    l.data.any fun c => !c.isWhitespace

/-- The pages drawn by a fallback render of `content`: the first page is
seeded with the header (the `drawHeader(page)` call before the loop), then
the loop lays out the non-blank lines from `y = height - 170`. -/
def fallbackPagesFor (env : Env) (doc : Document) (content : String) :
    List (List DrawOp) :=
  renderLines (drawHeader env doc) (contentLines content) yStart
    (drawHeader env doc) []

/-- Filename of a successful fallback render
(`${docNumber}_v${revisionNo}_fallback_${Date.now()}.pdf`). -/
def fallbackFileName (env : Env) (doc : Document) : String :=
  doc.docNumber ++ "_v" ++ toString doc.revisionNo ++ "_fallback_" ++
    toString env.now ++ ".pdf"

/-- Outcome of the fallback renderer: the thrown-or-returned result and the
draw calls issued (grouped by page). -/
structure FallbackOutcome where
  result : Except String String
  pages : List (List DrawOp)

/-- The `try` block of `convertWordToPDFAlternative`: import pdf-lib, read
the file, extract raw text, lay out the pages, save and write the artifact.
Note that the `controlCopyInfo` parameter is accepted but never consulted:
no draw call depends on it. -/
def fallbackBody (env : Env) (file : SourceFile) (doc : Document)
    (controlCopyInfo : Option ControlCopyInfo) : FallbackOutcome :=
  if ¬env.pdfLibImportOk then ⟨Except.error pdfLibErrorMsg, []⟩
  else if ¬file.readOk then ⟨Except.error enoentMsg, []⟩
  else match file.textExtraction with
    | none => ⟨Except.error extractionErrorMsg, []⟩
    | some content =>
      let pages := fallbackPagesFor env doc content
      if ¬env.fallbackWriteOk then ⟨Except.error writeErrorMsg, pages⟩
      else ⟨Except.ok (pdfsDir ++ "/" ++ fallbackFileName env doc), pages⟩

/-- `convertWordToPDFAlternative`: the `catch` wraps any failure of the try
block in the terminal `PDF generation failed completely:` error. -/
def convertWordToPDFAlternative (env : Env) (file : SourceFile)
    (doc : Document) (controlCopyInfo : Option ControlCopyInfo) :
    FallbackOutcome :=
  let b := fallbackBody env file doc controlCopyInfo
  match b.result with
  | Except.ok p => ⟨Except.ok p, b.pages⟩
  | Except.error e =>
      ⟨Except.error ("PDF generation failed completely: " ++ e), b.pages⟩

/-! ## Primary renderer (`convertWordToPDFWithPuppeteer`, lines 43-128) -/

/-- Filename of a successful primary render
(`${docNumber}_v${revisionNo}_final_${Date.now()}.pdf`). -/
def primaryFileName (env : Env) (doc : Document) : String :=
  doc.docNumber ++ "_v" ++ toString doc.revisionNo ++ "_final_" ++
    toString env.now ++ ".pdf"

/-- The `try` block of the primary renderer: its result together with
whether the browser resource got acquired (`browser` assigned by a
successful `puppeteer.launch`). Steps in source order: `fs.access` +
`fs.readFile`, `mammoth.convertToHtml`, `puppeteer.launch`,
`page.setContent` (30s timeout), `page.pdf` with the header/footer
templates, `fs.writeFile`. -/
def primaryBody (env : Env) (file : SourceFile) (doc : Document)
    (controlCopyInfo : Option ControlCopyInfo) : Except String String × Bool :=
  if ¬file.readOk then (Except.error enoentMsg, false)
  else match file.htmlExtraction with
    | none => (Except.error extractionErrorMsg, false)
    | some _html =>
      if ¬env.puppeteerLaunchOk then (Except.error launchErrorMsg, false)
      else if ¬env.setContentOk then (Except.error setContentErrorMsg, true)
      else if ¬env.pagePdfOk then (Except.error pagePdfErrorMsg, true)
      else if ¬env.writeFileOk then (Except.error writeErrorMsg, true)
      else (Except.ok (pdfsDir ++ "/" ++ primaryFileName env doc), true)

/-- Outcome of the primary renderer: result, whether the browser was
launched, and whether it was closed before returning. -/
structure PrimaryOutcome where
  result : Except String String
  browserLaunched : Bool
  browserClosed : Bool

/-- `convertWordToPDFWithPuppeteer`: the `finally` clause
(`if (browser) await browser.close()`) closes the browser on every exit of
the try block exactly when it was launched. -/
def convertWordToPDFWithPuppeteer (env : Env) (file : SourceFile)
    (doc : Document) (controlCopyInfo : Option ControlCopyInfo) :
    PrimaryOutcome :=
  let b := primaryBody env file doc controlCopyInfo
  ⟨b.1, b.2, b.2⟩

/-! ## Pipeline coordinator (`convertWordToPDF`, lines 29-41) -/

/-- Outcome of one coordinated conversion: final result, how many times
each stage was attempted, the browser bookkeeping of the primary attempt,
and the draw calls of the fallback attempt (empty when it never ran). -/
structure PipelineOutcome where
  result : Except String String
  primaryAttempts : Nat
  fallbackAttempts : Nat
  browserLaunched : Bool
  browserClosed : Bool
  fallbackPages : List (List DrawOp)

/-- `convertWordToPDF`: try the primary renderer; on any exception switch
to the fallback renderer; each stage is attempted at most once and the
fallback's result (success or terminal error) is returned as-is. -/
def convertWordToPDF (env : Env) (file : SourceFile) (doc : Document)
    (controlCopyInfo : Option ControlCopyInfo) : PipelineOutcome :=
  let p := convertWordToPDFWithPuppeteer env file doc controlCopyInfo
  match p.result with
  | Except.ok path => ⟨Except.ok path, 1, 0, p.browserLaunched, p.browserClosed, []⟩
  | Except.error _ =>
      let f := convertWordToPDFAlternative env file doc controlCopyInfo
      ⟨f.result, 1, 1, p.browserLaunched, p.browserClosed, f.pages⟩

/-! ## Concrete fixtures -/

/-- A fully healthy environment: clock at a fixed instant, Node's default
ICU locale (en-US) for argument-less `toLocaleDateString()`, every external
step succeeding. -/
def envOK : Env :=
  { now := 1700000000000
    today := ⟨2024, 1, 2⟩
    localeDateFmt := toLocaleDateString_enUS
    puppeteerLaunchOk := true
    setContentOk := true
    pagePdfOk := true
    writeFileOk := true
    pdfLibImportOk := true
    fallbackWriteOk := true }

/-- Environment where `puppeteer.launch` fails (primary path unusable). -/
def envPrimaryFail : Env := { envOK with puppeteerLaunchOk := false }

/-- Environment where both the primary launch and the fallback's
pdf-lib import fail (total pipeline failure). -/
def envBothFail : Env := { envPrimaryFail with pdfLibImportOk := false }

/-- A representative document record. -/
def docC : Document :=
  { docName := "Quality Manual"
    docNumber := "QM-001"
    issueNo := some "02"
    revisionNo := 3
    dateOfIssue := some ⟨2024, 3, 15⟩
    reviewDueDate := none
    status := "approved"
    preparerName := some "A. Jones"
    approverName := none
    issuerName := none
    creatorDataFullName := none
    approverDataFullName := none
    issuerDataFullName := none
    departmentNames := ["QA"]
    headerInfo := some "Acme Ltd"
    footerInfo := none
    content := none
    reasonForRevision := none }

/-- A readable, extractable source file. -/
def fileOK : SourceFile :=
  { readOk := true
    htmlExtraction := some "<p>body</p>"
    textExtraction := some "hello world" }

/-- A readable file whose bytes are not a document: both mammoth
extractions throw. -/
def corruptFile : SourceFile :=
  { readOk := true, htmlExtraction := none, textExtraction := none }

/-- A control-copy request naming the recipient J. Smith. -/
def cciJS : ControlCopyInfo :=
  { userId := "u1"
    userFullName := "J. Smith"
    controlCopyNumber := 1
    date := "2024-03-15" }

/-- Forty non-blank one-character lines: enough body text to overflow the
first fallback page (35 lines fit between `height - 170` and the `y < 150`
threshold at 15 points per line). -/
def bigContent : String := String.intercalate "\n" (List.replicate 40 "x")

/-- A single line of one hundred printable characters (letter `a`). -/
def lineA100 : String := String.mk (List.replicate 100 (Char.ofNat 97))

/-- The first 95 of those characters: what the fallback actually draws. -/
def a95 : String := String.mk (List.replicate 95 (Char.ofNat 97))

/-- `true` iff some text draw call on some page contains `needle`. -/
def pagesContain (pages : List (List DrawOp)) (needle : String) : Bool :=
  pages.any fun p => p.any fun op =>
    match op with
    | DrawOp.text s _ _ _ _ => strContains s needle
    | DrawOp.rect _ _ _ _ => false

/-- The string of a draw call if it is a body-text call (the fallback body
loop draws at `x = 50`, size 10, regular font; every header call differs in
`x` or size or font). -/
def bodyTextOfOp : DrawOp → Option String
  | DrawOp.text s x _ size bold =>
      if x = 5000 ∧ size = 10 ∧ bold = false then some s else none
  | DrawOp.rect _ _ _ _ => none

/-- All body text drawn across a list of pages, in drawing order. -/
def bodyTexts (pages : List (List DrawOp)) : List String :=
  (pages.map fun p => p.filterMap bodyTextOfOp).flatten

/-! ## Helper lemmas about the fallback layout loop -/

/-- Every page emitted by the layout loop consists of the header block
followed only by body-text draw calls, provided the flushed pages and the
page under construction already do. -/
theorem renderLines_headed (hdr : List DrawOp) :
    ∀ (lines : List String) (y : Int) (cur : List DrawOp)
      (pages : List (List DrawOp)),
      (∀ p ∈ pages, ∃ t, p = hdr ++ t ∧
        ∀ op ∈ t, ∃ s z, op = DrawOp.text s 5000 z 10 false) →
      (∃ t, cur = hdr ++ t ∧
        ∀ op ∈ t, ∃ s z, op = DrawOp.text s 5000 z 10 false) →
      ∀ p ∈ renderLines hdr lines y cur pages,
        ∃ t, p = hdr ++ t ∧
          ∀ op ∈ t, ∃ s z, op = DrawOp.text s 5000 z 10 false := by
  intro lines
  induction lines with
  | nil =>
    intro y cur pages hpages hcur p hp
    simp only [renderLines] at hp
    rcases List.mem_append.mp hp with h | h
    · exact hpages p h
    · rw [List.mem_singleton.mp h]
      exact hcur
  | cons line rest ih =>
    intro y cur pages hpages hcur p hp
    simp only [renderLines] at hp
    by_cases hy : y < yThreshold
    · rw [if_pos hy] at hp
      refine ih _ _ _ ?_ ?_ p hp
      · intro q hq
        rcases List.mem_append.mp hq with h | h
        · exact hpages q h
        · rw [List.mem_singleton.mp h]
          exact hcur
      · refine ⟨[bodyOp line yStart], rfl, ?_⟩
        intro op hop
        rw [List.mem_singleton.mp hop]
        exact ⟨cleanLine line, yStart, rfl⟩
    · rw [if_neg hy] at hp
      refine ih _ _ _ hpages ?_ p hp
      rcases hcur with ⟨t, rfl, ht⟩
      refine ⟨t ++ [bodyOp line y], by rw [List.append_assoc], ?_⟩
      intro op hop
      rcases List.mem_append.mp hop with h | h
      · exact ht op h
      · rw [List.mem_singleton.mp h]
        exact ⟨cleanLine line, y, rfl⟩

/-- No draw call of the header block is a body-text call (the header draws
at `x = 45`/`x = 40` or with size 9/11, never at `x = 50` with size 10). -/
theorem drawHeader_no_bodyText (env : Env) (doc : Document) :
    (drawHeader env doc).filterMap bodyTextOfOp = [] := by
  simp [drawHeader, bodyTextOfOp]

/-- The body text drawn by the layout loop is exactly the cleaned input
lines, in order, appended to whatever body text the accumulators hold. -/
theorem bodyTexts_renderLines (hdr : List DrawOp)
    (h0 : hdr.filterMap bodyTextOfOp = []) :
    ∀ (lines : List String) (y : Int) (cur : List DrawOp)
      (pages : List (List DrawOp)),
      bodyTexts (renderLines hdr lines y cur pages) =
        bodyTexts pages ++ cur.filterMap bodyTextOfOp ++
          lines.map cleanLine := by
  intro lines
  induction lines with
  | nil =>
    intro y cur pages
    simp [renderLines, bodyTexts]
  | cons line rest ih =>
    intro y cur pages
    simp only [renderLines]
    by_cases hy : y < yThreshold
    · rw [if_pos hy, ih]
      simp [bodyTexts, h0, bodyOp, bodyTextOfOp, List.filterMap_append]
    · rw [if_neg hy, ih]
      simp [List.filterMap_append, bodyOp, bodyTextOfOp]

/-! ## Claim theorems -/

/-- C7: the headless rendering-engine resource acquired by the primary
renderer is released unconditionally on every exit path of the primary
attempt — on success, on internal rendering failure, and on any exception
during content-setting or PDF extraction — before control returns to the
coordinator: whenever the browser was launched, it is closed. -/
theorem primary_browser_released_on_every_exit (env : Env) (file : SourceFile)
    (doc : Document) (cci : Option ControlCopyInfo)
    (h : (convertWordToPDFWithPuppeteer env file doc cci).browserLaunched = true) :
    (convertWordToPDFWithPuppeteer env file doc cci).browserClosed = true := h

/-- Witness for C7: a fully successful primary attempt launches the browser
and closes it. -/
theorem primary_browser_released_witness :
    (convertWordToPDFWithPuppeteer envOK fileOK docC none).browserClosed = true :=
  primary_browser_released_on_every_exit envOK fileOK docC none (by decide)

/-- C3: the coordinator attempts the primary renderer exactly once; on any
exception from the primary stage it attempts the fallback renderer exactly
once (and not at all on primary success); if the fallback also fails, the
terminal error is the fallback's own failure message wrapped in
`PDF generation failed completely:`. -/
theorem coordinator_single_attempts_and_terminal_tag (env : Env)
    (file : SourceFile) (doc : Document) (cci : Option ControlCopyInfo) :
    (convertWordToPDF env file doc cci).primaryAttempts = 1 ∧
    (∀ p, (convertWordToPDFWithPuppeteer env file doc cci).result = Except.ok p →
      (convertWordToPDF env file doc cci).fallbackAttempts = 0 ∧
      (convertWordToPDF env file doc cci).result = Except.ok p) ∧
    (∀ e, (convertWordToPDFWithPuppeteer env file doc cci).result = Except.error e →
      (convertWordToPDF env file doc cci).fallbackAttempts = 1 ∧
      (convertWordToPDF env file doc cci).result =
        (convertWordToPDFAlternative env file doc cci).result) ∧
    (∀ e e2, (convertWordToPDFWithPuppeteer env file doc cci).result = Except.error e →
      (fallbackBody env file doc cci).result = Except.error e2 →
      (convertWordToPDF env file doc cci).result =
        Except.error ("PDF generation failed completely: " ++ e2)) := by
  cases h : (convertWordToPDFWithPuppeteer env file doc cci).result with
  | ok p =>
    refine ⟨by simp [convertWordToPDF, h], ?_, ?_, ?_⟩
    · intro q hq
      injection hq with hpq
      subst hpq
      exact ⟨by simp [convertWordToPDF, h], by simp [convertWordToPDF, h]⟩
    · intro e' he'
      simp at he'
    · intro e' e2 he' he2
      simp at he'
  | error e =>
    refine ⟨by simp [convertWordToPDF, h], ?_, ?_, ?_⟩
    · intro q hq
      simp at hq
    · intro e' he'
      exact ⟨by simp [convertWordToPDF, h], by simp [convertWordToPDF, h]⟩
    · intro e' e2 he' he2
      simp [convertWordToPDF, h, convertWordToPDFAlternative, he2]

/-- Witness for C3: with Puppeteer launch and pdf-lib import both failing,
the fallback is attempted exactly once and the terminal error wraps the
fallback's own message. -/
theorem coordinator_terminal_tag_witness :
    (convertWordToPDF envBothFail fileOK docC none).fallbackAttempts = 1 ∧
    (convertWordToPDF envBothFail fileOK docC none).result =
      Except.error ("PDF generation failed completely: " ++ pdfLibErrorMsg) :=
  ⟨((coordinator_single_attempts_and_terminal_tag envBothFail fileOK docC
      none).2.2.1 launchErrorMsg rfl).1,
   (coordinator_single_attempts_and_terminal_tag envBothFail fileOK docC
      none).2.2.2 launchErrorMsg pdfLibErrorMsg rfl rfl⟩

/-- C5: a successful primary render returns a path of the form
`pdfs/{docNumber}_v{revisionNo}_final_{timestamp}.pdf`, and a successful
fallback render one of the form
`pdfs/{docNumber}_v{revisionNo}_fallback_{timestamp}.pdf`. -/
theorem rendered_filename_contract (env : Env) (file : SourceFile)
    (doc : Document) (cci : Option ControlCopyInfo) :
    (∀ p, (convertWordToPDFWithPuppeteer env file doc cci).result = Except.ok p →
      p = pdfsDir ++ "/" ++ doc.docNumber ++ "_v" ++
        toString doc.revisionNo ++ "_final_" ++ toString env.now ++ ".pdf") ∧
    (∀ p, (convertWordToPDFAlternative env file doc cci).result = Except.ok p →
      p = pdfsDir ++ "/" ++ doc.docNumber ++ "_v" ++
        toString doc.revisionNo ++ "_fallback_" ++ toString env.now ++ ".pdf") := by
  constructor
  · intro p hp
    simp only [convertWordToPDFWithPuppeteer] at hp
    unfold primaryBody at hp
    split at hp
    · simp at hp
    · split at hp
      · simp at hp
      · split at hp
        · simp at hp
        · split at hp
          · simp at hp
          · split at hp
            · simp at hp
            · split at hp
              · simp at hp
              · simp [primaryFileName] at hp
                exact hp.symm
  · intro p hp
    simp only [convertWordToPDFAlternative] at hp
    split at hp
    · simp only [Except.ok.injEq] at hp
      subst hp
      rename_i b heq
      unfold fallbackBody at heq
      split at heq
      · simp at heq
      · split at heq
        · simp at heq
        · split at heq
          · simp at heq
          · split at heq
            · simp at heq
            · simp [fallbackFileName] at heq ⊢
              exact heq.symm
    · simp at hp

/-- Witness for C5: the concrete paths returned by a successful primary and
a successful fallback render instantiate the filename contract. -/
theorem rendered_filename_contract_witness :
    "pdfs/QM-001_v3_final_1700000000000.pdf" =
      pdfsDir ++ "/" ++ docC.docNumber ++ "_v" ++ toString docC.revisionNo ++
        "_final_" ++ toString envOK.now ++ ".pdf" ∧
    "pdfs/QM-001_v3_fallback_1700000000000.pdf" =
      pdfsDir ++ "/" ++ docC.docNumber ++ "_v" ++ toString docC.revisionNo ++
        "_fallback_" ++ toString envOK.now ++ ".pdf" :=
  ⟨(rendered_filename_contract envOK fileOK docC none).1
      "pdfs/QM-001_v3_final_1700000000000.pdf" rfl,
   (rendered_filename_contract envOK fileOK docC none).2
      "pdfs/QM-001_v3_fallback_1700000000000.pdf" rfl⟩

/-- Counterexample to C2 as stated: on a readable file whose bytes are not
a document (both extractions throw), the coordinator does convert the
extraction failure into a fallback-renderer attempt (`fallbackAttempts = 1`),
and the error finally raised is the fallback's terminal
`PDF generation failed completely:` error, not a bare extraction error. -/
theorem extraction_failure_reaches_fallback_cex :
    (convertWordToPDF envOK corruptFile docC none).fallbackAttempts = 1 ∧
    (convertWordToPDF envOK corruptFile docC none).result =
      Except.error ("PDF generation failed completely: " ++ extractionErrorMsg) :=
  ⟨rfl, rfl⟩

/-- C2 as amended: when content extraction fails, the primary attempt
throws before launching the rendering engine, the coordinator catches this
like any primary failure and makes exactly one fallback attempt, whose own
extraction fails identically before any page is drawn; the pipeline then
terminates with the terminal error wrapping the extraction message. -/
theorem extraction_failure_flows_through_fallback (env : Env)
    (file : SourceFile) (doc : Document) (cci : Option ControlCopyInfo)
    (hRead : file.readOk = true) (hHtml : file.htmlExtraction = none)
    (hText : file.textExtraction = none) (hLib : env.pdfLibImportOk = true) :
    (convertWordToPDF env file doc cci).primaryAttempts = 1 ∧
    (convertWordToPDF env file doc cci).browserLaunched = false ∧
    (convertWordToPDF env file doc cci).fallbackAttempts = 1 ∧
    (convertWordToPDF env file doc cci).fallbackPages = [] ∧
    (convertWordToPDF env file doc cci).result =
      Except.error ("PDF generation failed completely: " ++ extractionErrorMsg) := by
  have hp : convertWordToPDFWithPuppeteer env file doc cci =
      ⟨Except.error extractionErrorMsg, false, false⟩ := by
    simp [convertWordToPDFWithPuppeteer, primaryBody, hRead, hHtml]
  have hf : convertWordToPDFAlternative env file doc cci =
      ⟨Except.error ("PDF generation failed completely: " ++ extractionErrorMsg), []⟩ := by
    simp [convertWordToPDFAlternative, fallbackBody, hLib, hRead, hText]
  refine ⟨?_, ?_, ?_, ?_, ?_⟩ <;>
    simp [convertWordToPDF, hp, hf]

/-- Witness for the amended C2 at the concrete corrupt file. -/
theorem extraction_failure_flows_witness :
    (convertWordToPDF envOK corruptFile docC none).browserLaunched = false ∧
    (convertWordToPDF envOK corruptFile docC none).fallbackPages = [] :=
  ⟨(extraction_failure_flows_through_fallback envOK corruptFile docC none
      rfl rfl rfl rfl).2.1,
   (extraction_failure_flows_through_fallback envOK corruptFile docC none
      rfl rfl rfl rfl).2.2.2.1⟩

/-- C1 evaluated at its failing input (code bug): with `ControlCopyInfo`
for J. Smith supplied, the primary path's footer template carries the
literal `CONTROLLED COPY` marker and the recipient's name (and carries
neither when the info is absent), but the fallback renderer ignores its
`controlCopyInfo` argument entirely: its draw calls are identical with and
without the info, and no draw call on any page contains the marker. -/
theorem fallback_ignores_control_copy_stamp :
    (getFooterTemplate docC (some cciJS)).controlCopyBanner =
      some "CONTROLLED COPY - NOT FOR REPRODUCTION | Printed by: J. Smith" ∧
    strContains (footerText (getFooterTemplate docC (some cciJS)))
      "CONTROLLED COPY" = true ∧
    strContains (footerText (getFooterTemplate docC (some cciJS)))
      "J. Smith" = true ∧
    (getFooterTemplate docC none).controlCopyBanner = none ∧
    strContains (footerText (getFooterTemplate docC none))
      "CONTROLLED COPY" = false ∧
    (convertWordToPDFAlternative envOK fileOK docC (some cciJS)).pages =
      (convertWordToPDFAlternative envOK fileOK docC none).pages ∧
    pagesContain (convertWordToPDFAlternative envOK fileOK docC (some cciJS)).pages
      "CONTROLLED COPY" = false := by
  decide

/-- C4 evaluated at its failing input (code bug): the header content of the
two paths diverges. The primary header banner is the hardcoded company
name while the fallback draws the stored `headerInfo` upper-cased; the
primary renders the issue date in en-GB (`15/03/2024`) while the fallback
renders it in the runtime default locale (`3/15/2024`); and the department
field rendered by the primary appears nowhere in the fallback output. -/
theorem header_content_diverges_between_paths :
    (getHeaderTemplate envOK docC).companyName =
      "NEELIKON FOOD DYES AND CHEMICALS LIMITED" ∧
    DrawOp.text "ACME LTD" 5000 (pageHeight - 6000) 11 true ∈
      drawHeader envOK docC ∧
    pagesContain (fallbackPagesFor envOK docC "Scope") "NEELIKON" = false ∧
    (getHeaderTemplate envOK docC).dateOfIssueText = "15/03/2024" ∧
    pagesContain (fallbackPagesFor envOK docC "Scope") "15/03/2024" = false ∧
    pagesContain (fallbackPagesFor envOK docC "Scope") "3/15/2024" = true ∧
    (getHeaderTemplate envOK docC).deptText = "QA" ∧
    pagesContain (fallbackPagesFor envOK docC "Scope") "Dept" = false := by
  decide

/-- C6 evaluated at its failing input (code bug): the primary header
renders `dateOfIssue` as en-GB `DD/MM/YYYY` and the unset due date as
`N/A`, but the fallback's `drawHeader` calls `toLocaleDateString()` with no
locale, so under the runtime's default locale (en-US on a stock Node) the
same date renders as `3/15/2024`, not in `DD/MM/YYYY` format. -/
theorem fallback_dates_not_rendered_enGB :
    (getHeaderTemplate envOK docC).dateOfIssueText = "15/03/2024" ∧
    (getHeaderTemplate envOK docC).dueRevDateText = "N/A" ∧
    DrawOp.text "Date of Issue: 3/15/2024 | Due Date: N/A"
      4500 (pageHeight - 10000) 9 false ∈ drawHeader envOK docC ∧
    strContains "Date of Issue: 3/15/2024 | Due Date: N/A"
      "15/03/2024" = false := by
  decide

/-- Counterexample to C8 as stated: a single line of 100 printable
characters is not wrapped onto continuation lines at the fixed width — the
fallback draws exactly one body-text call holding only the first 95
characters, so the drawn text loses the remaining 5 characters instead of
wrapping them. -/
theorem fallback_truncates_instead_of_wrapping_cex :
    bodyTexts (fallbackPagesFor envOK docC lineA100) = [a95] ∧
    lineA100.length = 100 ∧ a95.length = 95 := by
  decide

/-- C8 as amended: every body line drawn by the fallback is the source line
truncated to its first 95 characters (overflow is discarded, not wrapped),
with every character outside the printable ASCII range `0x20`-`0x7E`
replaced by a space; consequently each drawn line is at most 95 characters
of printable ASCII, and the body text drawn over all pages is exactly the
cleaned non-blank input lines in order. -/
theorem fallback_line_cleaning (env : Env) (doc : Document)
    (content : String) (line : String) :
    cleanLine line = String.mk ((line.data.take 95).map fun c =>
      if 32 ≤ c.toNat ∧ c.toNat ≤ 126 then c else Char.ofNat 32) ∧
    (cleanLine line).length ≤ 95 ∧
    (∀ c ∈ (cleanLine line).data, 32 ≤ c.toNat ∧ c.toNat ≤ 126) ∧
    bodyTexts (fallbackPagesFor env doc content) =
      (contentLines content).map cleanLine := by
  refine ⟨rfl, ?_, ?_, ?_⟩
  · show ((line.data.take 95).map _).length ≤ 95
    rw [List.length_map, List.length_take]
    exact min_le_left _ _
  · intro c hc
    have hc' : c ∈ (line.data.take 95).map fun c =>
        if 32 ≤ c.toNat ∧ c.toNat ≤ 126 then c else Char.ofNat 32 := hc
    rcases List.mem_map.mp hc' with ⟨c', -, rfl⟩
    by_cases h : 32 ≤ c'.toNat ∧ c'.toNat ≤ 126
    · rw [if_pos h]
      exact h
    · rw [if_neg h]
      decide
  · unfold fallbackPagesFor
    rw [bodyTexts_renderLines (drawHeader env doc)
      (drawHeader_no_bodyText env doc)]
    simp [bodyTexts, drawHeader_no_bodyText]

/-- Witness for the amended C8: applying the theorem at the concrete input
`"hi"` shows the first drawn character is printable ASCII. -/
theorem fallback_line_cleaning_witness :
    32 ≤ (Char.ofNat 104).toNat ∧ (Char.ofNat 104).toNat ≤ 126 :=
  (fallback_line_cleaning envOK docC "hi" "hi").2.2.1 (Char.ofNat 104)
    (by decide)

/-- C9: fallback pagination policy. A new page is started exactly when the
remaining vertical space at the next line falls below the fixed threshold
(`y < 150`): at or above it the line continues the current page, below it
the current page is flushed and the header block is re-drawn before the
line is placed. Consequently every page of the fallback output consists of
the header block followed only by body-text draw calls, and the header
block begins with the document name/number banner at the very top of the
page. -/
theorem fallback_pagination_policy (env : Env) (doc : Document)
    (content : String) :
    (∀ p ∈ fallbackPagesFor env doc content,
      ∃ t, p = drawHeader env doc ++ t ∧
        ∀ op ∈ t, ∃ s z, op = DrawOp.text s 5000 z 10 false) ∧
    (∀ line rest y cur pages, yThreshold ≤ y →
      renderLines (drawHeader env doc) (line :: rest) y cur pages =
        renderLines (drawHeader env doc) rest (y - lineStep)
          (cur ++ [bodyOp line y]) pages) ∧
    (∀ line rest y cur pages, y < yThreshold →
      renderLines (drawHeader env doc) (line :: rest) y cur pages =
        renderLines (drawHeader env doc) rest (yStart - lineStep)
          (drawHeader env doc ++ [bodyOp line yStart]) (pages ++ [cur])) ∧
    (∃ ops, drawHeader env doc =
      DrawOp.text ("Document Name: " ++ jsSubstring0 doc.docName 60 ++
          " | Document Number: " ++ jsSubstring0 doc.docNumber 30)
        4500 (pageHeight - 3000) 9 true :: ops) := by
  refine ⟨?_, ?_, ?_, ⟨_, rfl⟩⟩
  · intro p hp
    refine renderLines_headed (drawHeader env doc) _ _ _ _ ?_ ?_ p hp
    · intro q hq
      simp at hq
    · exact ⟨[], by simp, by simp⟩
  · intro line rest y cur pages hy
    simp [renderLines, not_lt.mpr hy]
  · intro line rest y cur pages hy
    simp [renderLines, hy]

/-- Witness for C9: on a concrete two-page render the last page decomposes
as header block plus body text, and a concrete step at `y = yStart`
continues the current page. -/
theorem fallback_pagination_policy_witness :
    (∃ t, (fallbackPagesFor envOK docC bigContent).getLastD [] =
      drawHeader envOK docC ++ t ∧
        ∀ op ∈ t, ∃ s z, op = DrawOp.text s 5000 z 10 false) ∧
    renderLines (drawHeader envOK docC) ["x"] yStart [] [] =
      renderLines (drawHeader envOK docC) [] (yStart - lineStep)
        [bodyOp "x" yStart] [] :=
  ⟨(fallback_pagination_policy envOK docC bigContent).1
      ((fallbackPagesFor envOK docC bigContent).getLastD []) (by decide),
   by
    have h := (fallback_pagination_policy envOK docC bigContent).2.1
      "x" [] yStart [] [] (by decide)
    simpa using h⟩

/-- C10: every page of a fallback render carries the constant header draw
call `Page: 1 of 1`, independent of the page's position and of how many
pages the document actually produces — the indicator never reflects the
true current or total page count. -/
theorem fallback_page_indicator_constant (env : Env) (doc : Document)
    (content : String) :
    ∀ p ∈ fallbackPagesFor env doc content,
      DrawOp.text "Page: 1 of 1" 4500 (pageHeight - 11500) 9 false ∈ p := by
  intro p hp
  have hheaded : ∃ t, p = drawHeader env doc ++ t ∧
      ∀ op ∈ t, ∃ s z, op = DrawOp.text s 5000 z 10 false := by
    refine renderLines_headed (drawHeader env doc) _ _ _ _ ?_ ?_ p hp
    · intro q hq
      simp at hq
    · exact ⟨[], by simp, by simp⟩
  rcases hheaded with ⟨t, rfl, -⟩
  apply List.mem_append_left
  simp [drawHeader]

/-- Witness for C10: the concrete 40-line document produces two pages, and
the second (last) page still carries the `Page: 1 of 1` indicator. -/
theorem fallback_page_indicator_witness :
    (fallbackPagesFor envOK docC bigContent).length = 2 ∧
    DrawOp.text "Page: 1 of 1" 4500 (pageHeight - 11500) 9 false ∈
      (fallbackPagesFor envOK docC bigContent).getLastD [] :=
  ⟨by decide,
   fallback_page_indicator_constant envOK docC bigContent
     ((fallbackPagesFor envOK docC bigContent).getLastD []) (by decide)⟩
